import Mathlib

/-
Verification of the per-session swap state machines of the atomic-swap
repository (packages alice and bob).  The Go handlers are embedded as
executable Lean functions over explicit state records; every external call
(wallet RPC, chain client, contract) is represented by an environment record
holding the outcome of each call site, and side effects are collected in an
ordered effect list.  Nil-pointer dereferences and double channel closes are
modelled as an explicit crash outcome, mirroring a Go panic.
-/

/-- Enumeration of the wire message kinds, mirroring the types of package net. -/
inductive MessageType where
  | SendKeysType
  | NotifyContractDeployedType
  | NotifyXMRLockType
  | NotifyReadyType
  | NotifyClaimedType
  | NotifyRefundType
deriving DecidableEq, Repr

/-- Wire messages with their fields, mirroring the net package structs. -/
inductive Message where
  | SendKeysMessage (publicSpendKey privateViewKey spendKeyHash ethAddress : String)
  | NotifyContractDeployed (address : String)
  | NotifyXMRLock (address : String)
  | NotifyReady
  | NotifyClaimed (txHash : String)
  | NotifyRefund (txHash : String)
deriving DecidableEq, Repr

/-- Message.Type of the Go net package: the kind tag of a message. -/
def Message.type : Message → MessageType
  | .SendKeysMessage _ _ _ _ => .SendKeysType
  | .NotifyContractDeployed _ => .NotifyContractDeployedType
  | .NotifyXMRLock _ => .NotifyXMRLockType
  | .NotifyReady => .NotifyReadyType
  | .NotifyClaimed _ => .NotifyClaimedType
  | .NotifyRefund _ => .NotifyRefundType

/-- Private key pair of the monero package: spend scalar and view scalar,
modelled as natural numbers; scalar addition models SumPrivateSpendKeys and
SumPrivateViewKeys. -/
structure PrivateKeyPair where
  spendKey : Nat
  viewKey : Nat
deriving DecidableEq, Repr

/-- Observable side effects of a handler run, in order of occurrence.  Each
call effect carries whether the call succeeded. -/
inductive Effect where
  | callGenViewOnly (ok : Bool)
  | callCloseWallet (ok : Bool)
  | callOpenOwn (ok : Bool)
  | callRefresh (ok : Bool)
  | callGetBalance (ok : Bool)
  | callGenFromKeys (spend view : Nat) (ok : Bool)
  | writeKeys (path : String) (spend view : Nat) (ok : Bool)
  | callReady (ok : Bool)
  | callRefund
  | callClaim (ok : Bool)
  | setSuccess
deriving DecidableEq, Repr

/-- Result of one HandleProtocolMessage call: reply plus done flag, an error
with done flag, or a crash (a Go panic: nil dereference or double close). -/
inductive Outcome where
  | ok (resp : Option Message) (done : Bool)
  | err (msg : String) (done : Bool)
  | crash
deriving DecidableEq, Repr

/-- Whether the wallet RPC client is left sitting on a view-only wallet after
the given effect sequence: a successful view-only generation opens one, and a
successful close, open of the own wallet, or spendable-wallet generation moves
the client off it. -/
def viewOnlyOpenAfter (effs : List Effect) : Bool :=
  effs.foldl (fun acc e =>
    match e with
    | .callGenViewOnly ok => if ok then true else acc
    | .callCloseWallet ok => if ok then false else acc
    | .callOpenOwn ok => if ok then false else acc
    | .callGenFromKeys _ _ ok => if ok then false else acc
    | _ => acc) false

/-- Mutable state of one Alice swap session (alice swapState). -/
structure AliceState where
  id : Nat
  providesAmount : Nat
  desiredAmount : Nat
  privkeys : Option PrivateKeyPair
  bobPublicSpendKey : Option String
  bobPrivateViewKey : Option String
  bobClaimHash : List Nat
  bobAddress : String
  contractSet : Bool
  t0 : Int
  t1 : Int
  nextExpectedMessage : MessageType
  xmrLockedClosed : Bool
  claimedClosed : Bool
  readySet : Bool
  success : Bool
deriving DecidableEq, Repr

/-- Alice newSwapState: fresh session expecting SendKeys, channels open,
success false. -/
def aliceNewSwapState (provides desired : Nat) : AliceState :=
  { id := 0
    providesAmount := provides
    desiredAmount := desired
    privkeys := none
    bobPublicSpendKey := none
    bobPrivateViewKey := none
    bobClaimHash := []
    bobAddress := ""
    contractSet := false
    t0 := 0
    t1 := 0
    nextExpectedMessage := .SendKeysType
    xmrLockedClosed := false
    claimedClosed := false
    readySet := false
    success := false }

/-- Mutable state of one Bob swap session (bob swapState). -/
structure BobState where
  id : Nat
  basepath : String
  providesAmount : Nat
  desiredAmount : Nat
  privkeys : Option PrivateKeyPair
  contractSet : Bool
  contractAddr : String
  t0 : Int
  t1 : Int
  alicePublicKeys : Option (String × String)
  alicePrivateViewKey : Option String
  nextExpectedMessage : MessageType
  readyClosed : Bool
  success : Bool
deriving DecidableEq, Repr

/-- Bob newSwapState: fresh session expecting SendKeys, ready channel open,
success false. -/
def bobNewSwapState (provides desired : Nat) : BobState :=
  { id := 0
    basepath := "base"
    providesAmount := provides
    desiredAmount := desired
    privkeys := none
    contractSet := false
    contractAddr := ""
    t0 := 0
    t1 := 0
    alicePublicKeys := none
    alicePrivateViewKey := none
    nextExpectedMessage := .SendKeysType
    readyClosed := false
    success := false }

/-- Outcomes of every external call the Alice handlers make, one field per
call site; an Option value of none means the call returned an error. -/
structure AliceEnv where
  hexDecodeHash : Option (List Nat)
  viewKeyFromHash : Option String
  viewKeyFromHex : Option String
  pubKeyPairParse : Option (String × String)
  verifyGenOk : Bool
  verifyCloseOk : Bool
  pubKeyParse : Option String
  deployAddr : Option String
  timeout0 : Option Int
  timeout1 : Option Int
  expectedLockAddr : String
  auditGenOk : Bool
  auditRefreshOk : Bool
  auditBalance : Option Nat
  auditCloseOk : Bool
  readyOk : Bool
  notifyClaimedAddr : Option String
deriving DecidableEq, Repr

/-- Outcomes of every external call the Bob handlers make, one field per call
site; an Option value of none means the call returned an error. -/
structure BobEnv where
  viewKeyFromHash : Option String
  viewKeyFromHex : Option String
  pubKeyPairParse : Option (String × String)
  keysGenOk : Bool
  keysCloseOk : Bool
  openOwnOk : Bool
  setContractOk : Bool
  lockAddr : Option String
  timeout0 : Option Int
  timeout1 : Option Int
  claimTxHash : Option String
  receiptLogs : Option (List (List Nat))
  unpackSecret : Option Nat
  spendKeyOk : Bool
  viewFromSpend : Option Nat
  writeOk : Bool
  genFromKeysOk : Bool
  walletRefreshOk : Bool
  walletBalance : Option Nat
deriving DecidableEq, Repr

/-- Alice checkMessageType: accept only the next expected kind; no
exceptions. -/
def aliceCheckMessageType (st : AliceState) (m : Message) : Bool :=
  m.type == st.nextExpectedMessage

/-- Bob checkMessageType: a NotifyRefund is accepted in every state; any other
message must match the next expected kind. -/
def bobCheckMessageType (st : BobState) (m : Message) : Bool :=
  match m with
  | .NotifyRefund _ => true
  | _ => m.type == st.nextExpectedMessage

/-- Alice verifyBobKeys: decode the spend key hash, record the commitment,
derive the view key from the hash, compare it with the announced view key,
parse the public key pair, and confirm a view-only wallet opens (closing it
right after).  Note the commitment is copied into the state before the
derivation check. -/
def verifyBobKeys (env : AliceEnv) (st : AliceState) :
    AliceState × List Effect × Option String :=
  match env.hexDecodeHash with
  | none => (st, [], some ("hex decode error"))
  | some hb =>
    if hb.length ≠ 32 then (st, [], some ("invalid spend key hash"))
    else
      let st1 := { st with bobClaimHash := hb }
      match env.viewKeyFromHash with
      | none => (st1, [], some ("failed to derive view key from spend key hash"))
      | some dvk =>
        match env.viewKeyFromHex with
        | none => (st1, [], some ("failed to generate the peer private view keys"))
        | some vk =>
          if vk ≠ dvk then
            (st1, [], some ("derived view key does not match the announced view key"))
          else
            match env.pubKeyPairParse with
            | none => (st1, [], some ("failed to generate public keys"))
            | some _kp =>
              if ¬ env.verifyGenOk then
                (st1, [.callGenViewOnly false],
                  some ("failed to generate view-only wallet to verify keys"))
              else if ¬ env.verifyCloseOk then
                (st1, [.callGenViewOnly true, .callCloseWallet false],
                  some ("failed to close wallet"))
              else
                (st1, [.callGenViewOnly true, .callCloseWallet true], none)

/-- Alice handleSendKeysMessage: field presence checks, verifyBobKeys, store
the peer keys, deploy the escrow, read both timeouts, reply with
NotifyContractDeployed. -/
def aliceHandleSendKeysMessage (env : AliceEnv) (st : AliceState)
    (pubSpend privView spendHash ethAddr : String) :
    AliceState × List Effect × Except String Message :=
  if pubSpend = "" ∨ privView = "" then
    (st, [], .error ("did not receive the peer public spend or private view key"))
  else if spendHash = "" then
    (st, [], .error ("did not receive the peer spend key hash"))
  else if ethAddr = "" then
    (st, [], .error ("did not receive the peer address"))
  else
    match verifyBobKeys env st with
    | (st1, effs, some e) => (st1, effs, .error e)
    | (st1, effs, none) =>
      match env.viewKeyFromHex with
      | none => (st1, effs, .error ("failed to generate the peer private view keys"))
      | some vk =>
        let st2 := { st1 with
          bobAddress := ethAddr
          nextExpectedMessage := .NotifyXMRLockType }
        match env.pubKeyParse with
        | none => (st2, effs, .error ("failed to generate the peer public spend key"))
        | some sk =>
          let st3 := { st2 with
            bobPublicSpendKey := some sk
            bobPrivateViewKey := some vk }
          match env.deployAddr with
          | none => (st3, effs, .error ("failed to deploy contract"))
          | some addr =>
            let st4 := { st3 with contractSet := true }
            match env.timeout0 with
            | none => (st4, effs, .error ("failed to get timeout0 from contract"))
            | some n0 =>
              let st5 := { st4 with t0 := n0 }
              match env.timeout1 with
              | none => (st5, effs, .error ("failed to get timeout1 from contract"))
              | some n1 =>
                ({ st5 with t1 := n1 }, effs, .ok (.NotifyContractDeployed addr))

/-- Alice NotifyXMRLock branch: check the address, audit the joint account by
opening a view-only wallet, refreshing and reading the balance, require
balance at least desiredAmount, close the wallet, advance the expected
message, close the xmrLocked channel, and call Ready on the escrow.  A nil
peer view key or nil own keys crashes, as the Go key summation would. -/
def aliceHandleXMRLock (env : AliceEnv) (st : AliceState) (addr : String) :
    AliceState × List Effect × Outcome :=
  if addr = "" then
    (st, [], .err ("got empty address for locked XMR") true)
  else
    match st.bobPrivateViewKey, st.privkeys with
    | none, _ => (st, [], .crash)
    | _, none => (st, [], .crash)
    | some _, some _ =>
      if addr ≠ env.expectedLockAddr then
        (st, [], .err ("address received in message does not match expected address") true)
      else if ¬ env.auditGenOk then
        (st, [.callGenViewOnly false],
          .err ("failed to generate view-only wallet to verify locked XMR") true)
      else if ¬ env.auditRefreshOk then
        (st, [.callGenViewOnly true, .callRefresh false],
          .err ("failed to refresh wallet") true)
      else
        match env.auditBalance with
        | none =>
          (st, [.callGenViewOnly true, .callRefresh true, .callGetBalance false],
            .err ("failed to get balance") true)
        | some b =>
          if b < st.desiredAmount then
            (st, [.callGenViewOnly true, .callRefresh true, .callGetBalance true],
              .err ("locked XMR amount is less than expected") true)
          else if ¬ env.auditCloseOk then
            (st, [.callGenViewOnly true, .callRefresh true, .callGetBalance true,
                  .callCloseWallet false],
              .err ("failed to close wallet") true)
          else
            let st1 := { st with nextExpectedMessage := .NotifyClaimedType }
            if st1.xmrLockedClosed then
              (st1, [.callGenViewOnly true, .callRefresh true, .callGetBalance true,
                    .callCloseWallet true], .crash)
            else
              let st2 := { st1 with xmrLockedClosed := true }
              if ¬ env.readyOk then
                (st2, [.callGenViewOnly true, .callRefresh true, .callGetBalance true,
                      .callCloseWallet true, .callReady false],
                  .err ("failed to call Ready") true)
              else
                ({ st2 with readySet := true },
                  [.callGenViewOnly true, .callRefresh true, .callGetBalance true,
                   .callCloseWallet true, .callReady true],
                  .ok (some .NotifyReady) false)

/-- Alice HandleProtocolMessage: gate then dispatch on the message kind.  The
NotifyClaimed branch wraps handleNotifyClaimed, which is outside the given
sources; modelled from the spec it recovers the joint key from the claim event
and creates the spendable wallet, latching success, then closes the claimed
channel. -/
def aliceHandleProtocolMessage (env : AliceEnv) (st : AliceState) (m : Message) :
    AliceState × List Effect × Outcome :=
  if ¬ aliceCheckMessageType st m then
    (st, [], .err ("received unexpected message") true)
  else
    match m with
    | .SendKeysMessage p v h e =>
      match aliceHandleSendKeysMessage env st p v h e with
      | (st1, effs, .ok resp) => (st1, effs, .ok (some resp) false)
      | (st1, effs, .error e1) => (st1, effs, .err e1 true)
    | .NotifyXMRLock a => aliceHandleXMRLock env st a
    | .NotifyClaimed _tx =>
      match env.notifyClaimedAddr with
      | none => (st, [], .err ("failed to create monero address") true)
      | some _ =>
        if st.claimedClosed then (st, [], .crash)
        else ({ st with claimedClosed := true, success := true }, [], .ok none true)
    | _ => (st, [], .err ("unexpected message type") false)

/-- Modelled from the spec: claimFunds of the bob package is not among the
given sources (only its call sites are); per the spec the success flag latches
once the claim transaction receipt is obtained, so a successful claim sets
success and returns the transaction hash. -/
def claimFunds (env : BobEnv) (st : BobState) :
    BobState × List Effect × Option String :=
  match env.claimTxHash with
  | none => (st, [.callClaim false], none)
  | some h => ({ st with success := true }, [.callClaim true, .setSuccess], some h)

/-- Bob handleSendKeysMessage: field checks, derive the view key from the
hash, advance the expected message, parse and compare the announced view key,
record it, parse the public pair, open a view-only wallet to verify, close it,
reopen the own wallet, and store the peer public keys.  The expected-message
advance and the view key store happen before verification completes, exactly
as in the source. -/
def bobHandleSendKeysMessage (env : BobEnv) (st : BobState)
    (pubSpend privView spendHash : String) :
    BobState × List Effect × Option String :=
  if pubSpend = "" ∨ privView = "" then
    (st, [], some ("did not receive the peer public spend or view key"))
  else if spendHash = "" then
    (st, [], some ("did not receive SpendKeyHash"))
  else
    match env.viewKeyFromHash with
    | none => (st, [], some ("failed to derive view key from spend key hash"))
    | some dvk =>
      let st1 := { st with nextExpectedMessage := .NotifyContractDeployedType }
      match env.viewKeyFromHex with
      | none => (st1, [], some ("failed to generate the peer private view key"))
      | some vk =>
        if vk ≠ dvk then
          (st1, [], some ("derived view key does not match the announced view key"))
        else
          let st2 := { st1 with alicePrivateViewKey := some vk }
          match env.pubKeyPairParse with
          | none => (st2, [], some ("failed to generate the peer public keys"))
          | some kp =>
            if ¬ env.keysGenOk then
              (st2, [.callGenViewOnly false],
                some ("failed to generate view-only wallet to verify keys"))
            else if ¬ env.keysCloseOk then
              (st2, [.callGenViewOnly true, .callCloseWallet false],
                some ("failed to close wallet"))
            else if ¬ env.openOwnOk then
              (st2, [.callGenViewOnly true, .callCloseWallet true, .callOpenOwn false],
                some ("failed to open wallet"))
            else
              ({ st2 with alicePublicKeys := some kp },
                [.callGenViewOnly true, .callCloseWallet true, .callOpenOwn true],
                none)

/-- Bob NotifyContractDeployed branch: bind the contract, lock the XMR funds,
read both timeouts, reply with NotifyXMRLock.  The expected message is
advanced before the contract is bound, as in the source. -/
def bobHandleContractDeployed (env : BobEnv) (st : BobState) (addr : String) :
    BobState × List Effect × Outcome :=
  if addr = "" then
    (st, [], .err ("got empty contract address") true)
  else
    let st1 := { st with nextExpectedMessage := .NotifyReadyType }
    if ¬ env.setContractOk then
      (st1, [], .err ("failed to instantiate contract instance") true)
    else
      let st2 := { st1 with contractSet := true, contractAddr := addr }
      match env.lockAddr with
      | none => (st2, [], .err ("failed to lock funds") true)
      | some lockedAddr =>
        match env.timeout0 with
        | none => (st2, [], .err ("failed to get timeout0 from contract") true)
        | some n0 =>
          let st3 := { st2 with t0 := n0 }
          match env.timeout1 with
          | none => (st3, [], .err ("failed to get timeout1 from contract") true)
          | some n1 =>
            ({ st3 with t1 := n1 }, [],
              .ok (some (.NotifyXMRLock lockedAddr)) false)

/-- Deterministic model of PrivateKeyPair.Address of the monero package. -/
def moneroAddress (kp : PrivateKeyPair) : String :=
  "xmr:" ++ toString kp.spendKey ++ ":" ++ toString kp.viewKey

/-- Bob createMoneroWallet: generate the spendable wallet from the joint key
pair, refresh, read the balance, then latch success. -/
def createMoneroWallet (env : BobEnv) (st : BobState) (kpAB : PrivateKeyPair) :
    BobState × List Effect × Except String String :=
  if ¬ env.genFromKeysOk then
    (st, [.callGenFromKeys kpAB.spendKey kpAB.viewKey false],
      .error ("failed to generate wallet from keys"))
  else if ¬ env.walletRefreshOk then
    (st, [.callGenFromKeys kpAB.spendKey kpAB.viewKey true, .callRefresh false],
      .error ("failed to refresh wallet"))
  else
    match env.walletBalance with
    | none =>
      (st, [.callGenFromKeys kpAB.spendKey kpAB.viewKey true, .callRefresh true,
            .callGetBalance false],
        .error ("failed to get balance"))
    | some _b =>
      ({ st with success := true },
        [.callGenFromKeys kpAB.spendKey kpAB.viewKey true, .callRefresh true,
         .callGetBalance true, .setSuccess],
        .ok (moneroAddress kpAB))

/-- Result of bobHandleRefund: an address, an error, or a crash. -/
inductive RefundResult where
  | ok (addr : String)
  | err (msg : String)
  | crash
deriving DecidableEq, Repr

/-- Bob handleRefund: fetch the refund transaction receipt, require a log,
unpack the 32-byte secret from the Refunded event, convert it to a spend key,
derive its view key, sum with the own keys to obtain the joint key pair, write
the pair to basepath/id/swap-secret, then create the spendable wallet.  The
own key access dereferences privkeys, so an unset privkeys crashes. -/
def bobHandleRefund (env : BobEnv) (st : BobState) (_txHash : String) :
    BobState × List Effect × RefundResult :=
  match env.receiptLogs with
  | none => (st, [], .err ("failed to get transaction receipt"))
  | some logs =>
    if logs = [] then (st, [], .err ("claim transaction has no logs"))
    else
      match env.unpackSecret with
      | none => (st, [], .err ("failed to unpack Refunded event"))
      | some sa =>
        if ¬ env.spendKeyOk then
          (st, [], .err ("failed to convert the secret into a key"))
        else
          match env.viewFromSpend with
          | none => (st, [], .err ("failed to convert the spend key into a view key"))
          | some vkA =>
            match st.privkeys with
            | none => (st, [], .crash)
            | some kp =>
              let kpAB : PrivateKeyPair :=
                { spendKey := sa + kp.spendKey, viewKey := vkA + kp.viewKey }
              let fp := st.basepath ++ "/" ++ toString st.id ++ "/swap-secret"
              if ¬ env.writeOk then
                (st, [.writeKeys fp kpAB.spendKey kpAB.viewKey false],
                  .err ("failed to write keys to file"))
              else
                match createMoneroWallet env st kpAB with
                | (st1, effs, .error e) =>
                  (st1, .writeKeys fp kpAB.spendKey kpAB.viewKey true :: effs, .err e)
                | (st1, effs, .ok a) =>
                  (st1, .writeKeys fp kpAB.spendKey kpAB.viewKey true :: effs, .ok a)

/-- Bob HandleProtocolMessage: gate then dispatch on the message kind.  A
duplicate NotifyReady reaches the channel close again and crashes, as the
handler does not advance the expected message. -/
def bobHandleProtocolMessage (env : BobEnv) (st : BobState) (m : Message) :
    BobState × List Effect × Outcome :=
  if ¬ bobCheckMessageType st m then
    (st, [], .err ("received unexpected message") true)
  else
    match m with
    | .SendKeysMessage p v h _ =>
      match bobHandleSendKeysMessage env st p v h with
      | (st1, effs, none) => (st1, effs, .ok none false)
      | (st1, effs, some e) => (st1, effs, .err e true)
    | .NotifyContractDeployed a => bobHandleContractDeployed env st a
    | .NotifyReady =>
      if st.readyClosed then (st, [], .crash)
      else
        let st1 := { st with readyClosed := true }
        match claimFunds env st1 with
        | (st2, effs, some h) => (st2, effs, .ok (some (.NotifyClaimed h)) true)
        | (st2, effs, none) => (st2, effs, .err ("failed to redeem ether") true)
    | .NotifyRefund tx =>
      match bobHandleRefund env st tx with
      | (st1, effs, .ok _a) => (st1, effs, .ok none true)
      | (st1, effs, .err e) => (st1, effs, .err e true)
      | (st1, effs, .crash) => (st1, effs, .crash)
    | _ => (st, [], .err ("unexpected message type") true)

/-- Waiting on time.After with duration d ends at now plus d, or immediately
when d is not positive. -/
def timeAfterWait (now d : Int) : Int := now + max d 0

/-- Alice tryRefund: the guard compares time.Until of t0 strictly positive and
time.Until of t1 strictly negative, then waits on time.After of the t1 delta;
the function returns the instant at which refund is submitted. -/
def aliceTryRefundTime (now : Int) (st : AliceState) : Int :=
  let untilT0 := st.t0 - now
  let untilT1 := st.t1 - now
  if 0 < untilT0 ∧ untilT1 < 0 then timeAfterWait now untilT1 else now

/-- Alice ProtocolComplete on stream closure: nothing if success is latched or
only keys were exchanged; with NotifyXMRLock or NotifyClaimed expected next,
tryRefund runs and the refund submission instant is returned. -/
def aliceProtocolCompleteRefundTime (now : Int) (st : AliceState) : Option Int :=
  if st.success then none
  else
    match st.nextExpectedMessage with
    | .SendKeysType => none
    | .NotifyXMRLockType => some (aliceTryRefundTime now st)
    | .NotifyClaimedType => some (aliceTryRefundTime now st)
    | _ => none

/-- Bob tryClaim: the guard compares time.Until of t0 strictly negative, then
waits on time.After of the t0 delta; the function returns the instant at which
the claim is submitted. -/
def bobTryClaimTime (now : Int) (st : BobState) : Int :=
  let untilT0 := st.t0 - now
  if untilT0 < 0 then timeAfterWait now untilT0 else now

/-- Bob ProtocolComplete on stream closure: nothing if success is latched or
before funds were locked; with NotifyReady expected next, tryClaim runs and
the claim submission instant is returned. -/
def bobProtocolCompleteClaimTime (now : Int) (st : BobState) : Option Int :=
  if st.success then none
  else
    match st.nextExpectedMessage with
    | .NotifyReadyType => some (bobTryClaimTime now st)
    | _ => none

/-- Claim C1: the claim says that on abrupt disconnect with setReady called and the
current time inside the window from t0 to t1, Alice waits until t1 before
refunding.  The source guard in tryRefund is inverted (it tests until-t0
positive and until-t1 negative, which cannot hold together when t0 is before
t1), so the wait never happens: at time 150 with t0 at 100 and t1 at 200,
nextExpected NotifyClaimed and readySet true, the refund is submitted
immediately at 150, strictly inside the window. -/
theorem C1_refund_submitted_inside_window :
    (aliceProtocolCompleteRefundTime 150
      { (aliceNewSwapState 10 20) with
          t0 := 100
          t1 := 200
          readySet := true
          nextExpectedMessage := .NotifyClaimedType } = some 150) ∧
    ((100 : Int) ≤ 150 ∧ (150 : Int) < 200) ∧
    ({ (aliceNewSwapState 10 20) with
          t0 := 100
          t1 := 200
          readySet := true
          nextExpectedMessage := .NotifyClaimedType } : AliceState).readySet = true := by
  decide

/-- Claim C2: the claim says that on stream closure while awaiting NotifyReady, Bob
waits until t0 before claiming whenever the current time is before t0.  The
source guard in tryClaim is inverted (it tests until-t0 negative, and the wait
on a negative duration returns immediately), so at time 50 with t0 at 100 and
t1 at 200 and setReady not observed, the claim is submitted immediately at 50,
strictly before t0. -/
theorem C2_claim_submitted_before_t0 :
    (bobProtocolCompleteClaimTime 50
      { (bobNewSwapState 10 20) with
          t0 := 100
          t1 := 200
          nextExpectedMessage := .NotifyReadyType } = some 50) ∧
    ((50 : Int) < 100) ∧
    ({ (bobNewSwapState 10 20) with
          t0 := 100
          t1 := 200
          nextExpectedMessage := .NotifyReadyType } : BobState).readyClosed = false := by
  decide

/-- Claim C7: the Bob gate accepts a message exactly when it is a NotifyRefund or
its kind equals the next expected kind, and the Alice gate accepts exactly
when the kind equals the next expected kind, with no refund exception. -/
theorem C7_gate_accepts_exactly_expected :
    (∀ (st : BobState) (m : Message),
        bobCheckMessageType st m = true ↔
          (m.type = .NotifyRefundType ∨ m.type = st.nextExpectedMessage)) ∧
    (∀ (st : AliceState) (m : Message),
        aliceCheckMessageType st m = true ↔ m.type = st.nextExpectedMessage) := by
  constructor
  · intro st m
    cases m <;> simp [bobCheckMessageType, Message.type]
  · intro st m
    cases m <;> simp [aliceCheckMessageType, Message.type]

/-- Whether an Outcome is an error return. -/
def Outcome.isErr : Outcome → Bool
  | .err _ _ => true
  | _ => false

/-- Sample Alice environment in which every external call succeeds. -/
def aliceEnvOk : AliceEnv :=
  { hexDecodeHash := some (List.replicate 32 7)
    viewKeyFromHash := some ("vk")
    viewKeyFromHex := some ("vk")
    pubKeyPairParse := some (("S"), ("V"))
    verifyGenOk := true
    verifyCloseOk := true
    pubKeyParse := some ("S")
    deployAddr := some ("0xc0ffee")
    timeout0 := some 100
    timeout1 := some 200
    expectedLockAddr := ("A")
    auditGenOk := true
    auditRefreshOk := true
    auditBalance := some 50
    auditCloseOk := true
    readyOk := true
    notifyClaimedAddr := some ("xmraddr") }

/-- Sample Bob environment in which every external call succeeds. -/
def bobEnvOk : BobEnv :=
  { viewKeyFromHash := some ("vk")
    viewKeyFromHex := some ("vk")
    pubKeyPairParse := some (("S"), ("V"))
    keysGenOk := true
    keysCloseOk := true
    openOwnOk := true
    setContractOk := true
    lockAddr := some ("XA")
    timeout0 := some 100
    timeout1 := some 200
    claimTxHash := some ("0xtx")
    receiptLogs := some [[1, 2]]
    unpackSecret := some 7
    spendKeyOk := true
    viewFromSpend := some 3
    writeOk := true
    genFromKeysOk := true
    walletRefreshOk := true
    walletBalance := some 9 }

/-- Sample Alice session state awaiting NotifyXMRLock, keys set. -/
def aliceStLock : AliceState :=
  { (aliceNewSwapState 10 20) with
      privkeys := some { spendKey := 1, viewKey := 2 }
      bobPublicSpendKey := some ("S")
      bobPrivateViewKey := some ("v")
      contractSet := true
      t0 := 100
      t1 := 200
      nextExpectedMessage := .NotifyXMRLockType }

/-- Helper: the audit branch calls ready only after reading a balance at least
desiredAmount. -/
theorem aliceHandleXMRLock_ready_needs_balance (env : AliceEnv) (st : AliceState)
    (a : String) :
    (∃ ok, Effect.callReady ok ∈ (aliceHandleXMRLock env st a).2.1) →
      ∃ b, env.auditBalance = some b ∧ st.desiredAmount ≤ b := by
  unfold aliceHandleXMRLock
  repeat' split
  all_goals simp_all

set_option maxHeartbeats 1000000 in
/-- Helper: the audit branch, in a state whose own keys and peer view key are
set, returns an error and never calls ready when the reported balance falls
short of desiredAmount. -/
theorem aliceHandleXMRLock_shortfall (env : AliceEnv) (st : AliceState)
    (a : String) (b : Nat)
    (hpk : st.privkeys.isSome = true) (hbv : st.bobPrivateViewKey.isSome = true)
    (hb : env.auditBalance = some b) (hlt : b < st.desiredAmount) :
    (aliceHandleXMRLock env st a).2.2.isErr = true ∧
      ∀ ok, Effect.callReady ok ∉ (aliceHandleXMRLock env st a).2.1 := by
  unfold aliceHandleXMRLock
  repeat' split
  all_goals simp_all [Outcome.isErr]

/-- Alice environment whose audited balance (5) falls short of the sample
session desiredAmount (20). -/
def aliceEnvShort : AliceEnv := { aliceEnvOk with auditBalance := some 5 }

/-- Claim C3: Alice calls ready on the escrow only when the audited view-only
balance is at least desiredAmount, and every NotifyXMRLock delivery whose
reported balance falls short makes HandleProtocolMessage return an error with
ready never called.  Stated for states whose own keys and peer view key are
set, since the joint-address computation dereferences them. -/
theorem C3_audit_soundness (env : AliceEnv) (st : AliceState) (a : String)
    (hpk : st.privkeys.isSome = true) (hbv : st.bobPrivateViewKey.isSome = true) :
    ((∃ ok, Effect.callReady ok ∈ (aliceHandleProtocolMessage env st (.NotifyXMRLock a)).2.1) →
        ∃ b, env.auditBalance = some b ∧ st.desiredAmount ≤ b) ∧
    (∀ b, env.auditBalance = some b → b < st.desiredAmount →
        (aliceHandleProtocolMessage env st (.NotifyXMRLock a)).2.2.isErr = true ∧
        ∀ ok, Effect.callReady ok ∉ (aliceHandleProtocolMessage env st (.NotifyXMRLock a)).2.1) := by
  constructor
  · intro h
    by_cases hg : aliceCheckMessageType st (.NotifyXMRLock a)
    · apply aliceHandleXMRLock_ready_needs_balance env st a
      simpa [aliceHandleProtocolMessage, hg] using h
    · simp [aliceHandleProtocolMessage, hg] at h
  · intro b hb hlt
    by_cases hg : aliceCheckMessageType st (.NotifyXMRLock a)
    · have hsf := aliceHandleXMRLock_shortfall env st a b hpk hbv hb hlt
      simpa [aliceHandleProtocolMessage, hg] using hsf
    · simp [aliceHandleProtocolMessage, hg, Outcome.isErr]

/-- Claim C3 witness: concrete shortfall run on the sample state. -/
theorem C3_audit_soundness_witness :
    ((∃ ok, Effect.callReady ok ∈
        (aliceHandleProtocolMessage aliceEnvShort aliceStLock (Message.NotifyXMRLock ("A"))).2.1) →
        ∃ b, aliceEnvShort.auditBalance = some b ∧ aliceStLock.desiredAmount ≤ b) ∧
    (∀ b, aliceEnvShort.auditBalance = some b → b < aliceStLock.desiredAmount →
        (aliceHandleProtocolMessage aliceEnvShort aliceStLock (Message.NotifyXMRLock ("A"))).2.2.isErr = true ∧
        ∀ ok, Effect.callReady ok ∉
          (aliceHandleProtocolMessage aliceEnvShort aliceStLock (Message.NotifyXMRLock ("A"))).2.1) :=
  C3_audit_soundness aliceEnvShort aliceStLock ("A") (by decide) (by decide)

/-- Bob environment whose view-only wallet generation fails during key
verification. -/
def bobEnvGenFail : BobEnv := { bobEnvOk with keysGenOk := false }

/-- Claim C4 counterexample: Bob receives a SendKeys message with all fields
present and a matching hash-derived view key, but the view-only wallet cannot
be opened.  The handler does return an error, yet the announced private view
key has already been stored in the session and nextExpectedMessage has
already been advanced, so the claim that the peer keys are not stored and no
later transition occurs without full verification is false at this input. -/
theorem C4_counterexample :
    ((bobHandleProtocolMessage bobEnvGenFail (bobNewSwapState 10 20)
        (Message.SendKeysMessage ("S") ("vk") ("h") (""))).2.2.isErr = true) ∧
    ((bobHandleProtocolMessage bobEnvGenFail (bobNewSwapState 10 20)
        (Message.SendKeysMessage ("S") ("vk") ("h") (""))).1.alicePrivateViewKey
      = some ("vk")) ∧
    ((bobHandleProtocolMessage bobEnvGenFail (bobNewSwapState 10 20)
        (Message.SendKeysMessage ("S") ("vk") ("h") (""))).1.nextExpectedMessage
      = .NotifyContractDeployedType) := by
  decide

/-- Helper: a successful verifyBobKeys run implies the hash-derived view key
exists, equals the announced view key, and the verification wallet opened. -/
theorem verifyBobKeys_ok_env (env : AliceEnv) (st st1 : AliceState)
    (effs : List Effect) (hok : verifyBobKeys env st = (st1, effs, none)) :
    ∃ k, env.viewKeyFromHash = some k ∧ env.viewKeyFromHex = some k ∧
      env.verifyGenOk = true := by
  unfold verifyBobKeys at hok
  repeat' split at hok
  all_goals simp_all

/-- Helper: verifyBobKeys never changes the stored peer public spend key. -/
theorem verifyBobKeys_preserves (env : AliceEnv) (st st1 : AliceState)
    (effs : List Effect) (r : Option String)
    (h : verifyBobKeys env st = (st1, effs, r)) :
    st1.bobPublicSpendKey = st.bobPublicSpendKey := by
  unfold verifyBobKeys at h
  repeat' split at h
  all_goals simp_all
  all_goals (obtain ⟨hq1, hq2⟩ := h; subst hq1; rfl)

set_option maxHeartbeats 1600000 in
/-- Alice environment whose escrow deploy fails after key verification. -/
def aliceEnvDeployFail : AliceEnv := { aliceEnvOk with deployAddr := none }

/-- Claim C4 amended: every SendKeys handler returns an error unless all
required fields are present, the view key derived from the spend key hash
equals the announced view key, and the view-only wallet opens.  Bob stores
the peer public key pair only when his handler fully succeeds; Alice stores
the peer public keys only after this full key verification has succeeded,
although her handler can still fail afterwards (escrow deploy or timeout
reads), as the last conjunct shows concretely.  However Bob advances
nextExpectedMessage and records the announced private view key before the
wallet-open check, and Alice records the spend-key-hash commitment before
the derivation check, so those fields may be mutated on failure paths. -/
theorem C4_key_verification_amended :
    (∀ (env : BobEnv) (st : BobState) (p v h : String),
        (bobHandleSendKeysMessage env st p v h).2.2 = none →
          p ≠ "" ∧ v ≠ "" ∧ h ≠ "" ∧
          ∃ k, env.viewKeyFromHash = some k ∧ env.viewKeyFromHex = some k ∧
            env.keysGenOk = true) ∧
    (∀ (env : BobEnv) (st : BobState) (p v h : String),
        (bobHandleSendKeysMessage env st p v h).1.alicePublicKeys ≠ st.alicePublicKeys →
          (bobHandleSendKeysMessage env st p v h).2.2 = none) ∧
    (∀ (env : AliceEnv) (st : AliceState) (p v h e : String) (r : Message),
        (aliceHandleSendKeysMessage env st p v h e).2.2 = .ok r →
          p ≠ "" ∧ v ≠ "" ∧ h ≠ "" ∧ e ≠ "" ∧
          ∃ k, env.viewKeyFromHash = some k ∧ env.viewKeyFromHex = some k ∧
            env.verifyGenOk = true) ∧
    (∀ (env : AliceEnv) (st : AliceState) (p v h e : String),
        (aliceHandleSendKeysMessage env st p v h e).1.bobPublicSpendKey ≠ st.bobPublicSpendKey →
          ∃ k, env.viewKeyFromHash = some k ∧ env.viewKeyFromHex = some k ∧
            env.verifyGenOk = true) ∧
    (((aliceHandleSendKeysMessage aliceEnvDeployFail (aliceNewSwapState 10 20)
        ("S") ("vk") ("h") ("0xb")).2.2 = .error ("failed to deploy contract")) ∧
      ((aliceHandleSendKeysMessage aliceEnvDeployFail (aliceNewSwapState 10 20)
        ("S") ("vk") ("h") ("0xb")).1.bobPublicSpendKey = some ("S")) ∧
      ((aliceHandleSendKeysMessage aliceEnvDeployFail (aliceNewSwapState 10 20)
        ("S") ("vk") ("h") ("0xb")).1.bobPrivateViewKey = some ("vk"))) := by
  refine ⟨?_, ?_, ?_, ?_, ?_⟩
  · intro env st p v h hok
    unfold bobHandleSendKeysMessage at hok
    repeat' split at hok
    all_goals simp_all
  · intro env st p v h hne
    unfold bobHandleSendKeysMessage at hne ⊢
    repeat' split
    all_goals simp_all
  · intro env st p v h e r hok
    unfold aliceHandleSendKeysMessage at hok
    repeat' split at hok
    all_goals
      first
      | (simp_all; done)
      | (obtain ⟨k, hk1, hk2, hk3⟩ := verifyBobKeys_ok_env _ _ _ _ (by assumption)
         simp_all)
  · intro env st p v h e hne
    unfold aliceHandleSendKeysMessage at hne
    repeat' split at hne
    all_goals
      first
      | (simp_all; done)
      | (obtain ⟨k, hk1, hk2, hk3⟩ := verifyBobKeys_ok_env _ _ _ _ (by assumption)
         simp_all
         done)
      | (have hp := verifyBobKeys_preserves _ _ _ _ _ (by assumption)
         simp_all)
  · exact ⟨rfl, rfl, rfl⟩

/-- Claim C4 amended witness: a fully successful Bob SendKeys run satisfies the
verification conditions. -/
theorem C4_key_verification_amended_witness :
    ("S" : String) ≠ "" ∧ ("vk" : String) ≠ "" ∧ ("h" : String) ≠ "" ∧
    ∃ k, bobEnvOk.viewKeyFromHash = some k ∧ bobEnvOk.viewKeyFromHex = some k ∧
      bobEnvOk.keysGenOk = true :=
  C4_key_verification_amended.1 bobEnvOk (bobNewSwapState 10 20)
    ("S") ("vk") ("h") (by decide)

/-- Sample Bob session state awaiting NotifyReady, funds locked. -/
def bobStReady : BobState :=
  { (bobNewSwapState 10 20) with
      privkeys := some { spendKey := 4, viewKey := 5 }
      contractSet := true
      contractAddr := ("0xc")
      t0 := 100
      t1 := 200
      alicePublicKeys := some (("S"), ("V"))
      alicePrivateViewKey := some ("vk")
      nextExpectedMessage := .NotifyReadyType }

/-- Bob state after the first NotifyReady has been accepted. -/
def bobStAfterReady : BobState :=
  (bobHandleProtocolMessage bobEnvOk bobStReady .NotifyReady).1

/-- Claim C5 counterexample: the first NotifyReady is accepted (claim succeeds),
but the handler does not advance nextExpectedMessage, so a second NotifyReady
passes the gate and crashes on the double close of the ready channel instead
of returning a protocol-violation error. -/
theorem C5_counterexample :
    ((bobHandleProtocolMessage bobEnvOk bobStReady .NotifyReady).2.2
      = .ok (some (.NotifyClaimed ("0xtx"))) true) ∧
    (bobStAfterReady.nextExpectedMessage = .NotifyReadyType) ∧
    ((bobHandleProtocolMessage bobEnvOk bobStAfterReady .NotifyReady).2.2 = .crash) ∧
    ((bobHandleProtocolMessage bobEnvOk bobStAfterReady .NotifyReady).2.2.isErr
      = false) := by
  decide

/-- Claim C5 amended: any message whose kind no longer matches nextExpected (and,
for Bob, is not a NotifyRefund) is rejected with the unexpected-message error
and the state is left entirely unchanged; the handlers for SendKeys,
NotifyContractDeployed and NotifyXMRLock advance nextExpected on acceptance,
so their duplicates are rejected this way.  The NotifyReady and NotifyClaimed
handlers do not advance nextExpected, so their duplicates pass the gate and
panic on the second channel close. -/
theorem C5_duplicate_rejection_amended :
    (∀ (env : BobEnv) (st : BobState) (m : Message),
        bobCheckMessageType st m = false →
          bobHandleProtocolMessage env st m =
            (st, [], .err ("received unexpected message") true)) ∧
    (∀ (env : AliceEnv) (st : AliceState) (m : Message),
        aliceCheckMessageType st m = false →
          aliceHandleProtocolMessage env st m =
            (st, [], .err ("received unexpected message") true)) ∧
    (∀ (env : BobEnv) (st : BobState) (p v h : String),
        (bobHandleSendKeysMessage env st p v h).2.2 = none →
          (bobHandleSendKeysMessage env st p v h).1.nextExpectedMessage
            = .NotifyContractDeployedType) ∧
    (∀ (env : BobEnv) (st : BobState) (a : String) (r : Option Message) (d : Bool),
        (bobHandleContractDeployed env st a).2.2 = .ok r d →
          (bobHandleContractDeployed env st a).1.nextExpectedMessage
            = .NotifyReadyType) ∧
    (∀ (env : AliceEnv) (st : AliceState) (p v h e : String) (r : Message),
        (aliceHandleSendKeysMessage env st p v h e).2.2 = .ok r →
          (aliceHandleSendKeysMessage env st p v h e).1.nextExpectedMessage
            = .NotifyXMRLockType) ∧
    (∀ (env : AliceEnv) (st : AliceState) (a : String) (r : Option Message) (d : Bool),
        (aliceHandleXMRLock env st a).2.2 = .ok r d →
          (aliceHandleXMRLock env st a).1.nextExpectedMessage
            = .NotifyClaimedType) := by
  refine ⟨?_, ?_, ?_, ?_, ?_, ?_⟩
  · intro env st m hm
    unfold bobHandleProtocolMessage
    simp [hm]
  · intro env st m hm
    unfold aliceHandleProtocolMessage
    simp [hm]
  · intro env st p v h hok
    unfold bobHandleSendKeysMessage at hok ⊢
    repeat' split
    all_goals simp_all
  · intro env st a r d hok
    unfold bobHandleContractDeployed at hok ⊢
    repeat' split
    all_goals simp_all
  · intro env st p v h e r hok
    unfold aliceHandleSendKeysMessage at hok ⊢
    repeat' split
    all_goals simp_all
  · intro env st a r d hok
    unfold aliceHandleXMRLock at hok ⊢
    repeat' split
    all_goals simp_all
    all_goals (split at hok <;> simp_all)

/-- Claim C5 amended witness: an out-of-sequence SendKeys delivered to a Bob state
awaiting NotifyReady is rejected and the state is unchanged. -/
theorem C5_duplicate_rejection_amended_witness :
    bobHandleProtocolMessage bobEnvOk bobStReady
        (Message.SendKeysMessage ("S") ("vk") ("h") ("")) =
      (bobStReady, [], .err ("received unexpected message") true) :=
  C5_duplicate_rejection_amended.1 bobEnvOk bobStReady
    (Message.SendKeysMessage ("S") ("vk") ("h") ("")) (by decide)

/-- Helper: the Bob SendKeys handler never touches the success flag and never
emits a success, wallet-creation or claim effect. -/
theorem bobHandleSendKeysMessage_success_inv (env : BobEnv) (st : BobState)
    (p v h : String) :
    (bobHandleSendKeysMessage env st p v h).1.success = st.success ∧
    Effect.setSuccess ∉ (bobHandleSendKeysMessage env st p v h).2.1 ∧
    (∀ sk vk b, Effect.callGenFromKeys sk vk b ∉ (bobHandleSendKeysMessage env st p v h).2.1) ∧
    (∀ b, Effect.callClaim b ∉ (bobHandleSendKeysMessage env st p v h).2.1) := by
  unfold bobHandleSendKeysMessage
  repeat' split
  all_goals simp_all

/-- Helper: the Bob contract-deployed handler emits no effects and never
touches the success flag. -/
theorem bobHandleContractDeployed_success_inv (env : BobEnv) (st : BobState)
    (a : String) :
    (bobHandleContractDeployed env st a).2.1 = ([] : List Effect) ∧
    (bobHandleContractDeployed env st a).1.success = st.success := by
  unfold bobHandleContractDeployed
  repeat' split
  all_goals simp_all

/-- Helper: claimFunds latches success exactly together with a successful
claim call effect. -/
theorem claimFunds_inv (env : BobEnv) (st : BobState) :
    ((claimFunds env st).1.success = true →
      st.success = true ∨ Effect.setSuccess ∈ (claimFunds env st).2.1) ∧
    (Effect.setSuccess ∈ (claimFunds env st).2.1 →
      Effect.callClaim true ∈ (claimFunds env st).2.1) := by
  unfold claimFunds
  repeat' split
  all_goals simp_all

/-- Helper: the refund handler latches success only together with a
successful spendable-wallet generation effect. -/
theorem bobHandleRefund_success_inv (env : BobEnv) (st : BobState) (tx : String) :
    ((bobHandleRefund env st tx).1.success = true →
      st.success = true ∨ Effect.setSuccess ∈ (bobHandleRefund env st tx).2.1) ∧
    (Effect.setSuccess ∈ (bobHandleRefund env st tx).2.1 →
      ∃ sk vk, Effect.callGenFromKeys sk vk true ∈ (bobHandleRefund env st tx).2.1) := by
  unfold bobHandleRefund createMoneroWallet
  repeat' split
  all_goals simp_all

set_option maxHeartbeats 1600000 in
/-- Claim C6: the success flag latches exactly at the winning side-effect.  A
successful claimFunds (modelled from the spec, as its body is outside the
given sources) always leaves success true, so every successful NotifyReady
handling ends with success true; createMoneroWallet latches success only
after the spendable-wallet generation succeeded; and across every Bob
handler run, a success latch is accompanied by a successful wallet-creation
or claim effect, and the flag never turns true without a latch effect. -/
theorem C6_success_latch :
    (∀ (env : BobEnv) (st : BobState) (h : String),
        (claimFunds env st).2.2 = some h → (claimFunds env st).1.success = true) ∧
    (∀ (env : BobEnv) (st : BobState) (r : Option Message) (d : Bool),
        (bobHandleProtocolMessage env st .NotifyReady).2.2 = .ok r d →
          (bobHandleProtocolMessage env st .NotifyReady).1.success = true) ∧
    (∀ (env : BobEnv) (st : BobState) (kp : PrivateKeyPair) (a : String),
        (createMoneroWallet env st kp).2.2 = .ok a →
          (createMoneroWallet env st kp).2.1 =
            [.callGenFromKeys kp.spendKey kp.viewKey true, .callRefresh true,
             .callGetBalance true, .setSuccess] ∧
          (createMoneroWallet env st kp).1.success = true) ∧
    (∀ (env : BobEnv) (st : BobState) (m : Message),
        Effect.setSuccess ∈ (bobHandleProtocolMessage env st m).2.1 →
          ((∃ sk vk, Effect.callGenFromKeys sk vk true ∈
              (bobHandleProtocolMessage env st m).2.1) ∨
            Effect.callClaim true ∈ (bobHandleProtocolMessage env st m).2.1)) ∧
    (∀ (env : BobEnv) (st : BobState) (m : Message),
        (bobHandleProtocolMessage env st m).1.success = true →
          st.success = true ∨
            Effect.setSuccess ∈ (bobHandleProtocolMessage env st m).2.1) := by
  refine ⟨?_, ?_, ?_, ?_, ?_⟩
  · intro env st h hok
    unfold claimFunds at hok ⊢
    repeat' split
    all_goals simp_all
  · intro env st r d hok
    unfold bobHandleProtocolMessage claimFunds at hok ⊢
    repeat' split
    all_goals simp_all
  · intro env st kp a hok
    unfold createMoneroWallet at hok ⊢
    repeat' split
    all_goals simp_all
  · intro env st m
    cases m with
    | SendKeysMessage p v h e =>
      have hs := bobHandleSendKeysMessage_success_inv env st p v h
      unfold bobHandleProtocolMessage
      repeat' split
      all_goals simp_all
    | NotifyContractDeployed a =>
      have hs := bobHandleContractDeployed_success_inv env st a
      unfold bobHandleProtocolMessage
      repeat' split
      all_goals simp_all
    | NotifyReady =>
      have hs := claimFunds_inv env { st with readyClosed := true }
      unfold bobHandleProtocolMessage
      repeat' split
      all_goals simp_all
      all_goals (split <;> simp_all)
    | NotifyClaimed tx =>
      unfold bobHandleProtocolMessage
      repeat' split
      all_goals simp_all
    | NotifyXMRLock a =>
      unfold bobHandleProtocolMessage
      repeat' split
      all_goals simp_all
    | NotifyRefund tx =>
      have hs := bobHandleRefund_success_inv env st tx
      unfold bobHandleProtocolMessage
      repeat' split
      all_goals simp_all
  · intro env st m
    cases m with
    | SendKeysMessage p v h e =>
      have hs := bobHandleSendKeysMessage_success_inv env st p v h
      unfold bobHandleProtocolMessage
      repeat' split
      all_goals simp_all
    | NotifyContractDeployed a =>
      have hs := bobHandleContractDeployed_success_inv env st a
      unfold bobHandleProtocolMessage
      repeat' split
      all_goals simp_all
    | NotifyReady =>
      have hs := claimFunds_inv env { st with readyClosed := true }
      unfold bobHandleProtocolMessage
      repeat' split
      all_goals simp_all
      all_goals (split <;> simp_all)
    | NotifyClaimed tx =>
      unfold bobHandleProtocolMessage
      repeat' split
      all_goals simp_all
    | NotifyXMRLock a =>
      unfold bobHandleProtocolMessage
      repeat' split
      all_goals simp_all
    | NotifyRefund tx =>
      have hs := bobHandleRefund_success_inv env st tx
      unfold bobHandleProtocolMessage
      repeat' split
      all_goals simp_all

/-- Claim C6 witness: a successful concrete claimFunds run ends with success
true. -/
theorem C6_success_latch_witness :
    (claimFunds bobEnvOk bobStReady).1.success = true :=
  C6_success_latch.1 bobEnvOk bobStReady ("0xtx") (by decide)

set_option maxHeartbeats 1600000 in
/-- Claim C8: a NotifyRefund passes the Bob gate in any state, and a successful
refund handling decodes the secret and its derived view key from the receipt
log, computes the joint keys as sums with the own keys, and produces exactly
the effect order: write the key pair to basepath/id/swap-secret, then create
the spendable wallet (generate, refresh, read balance), then latch
success. -/
theorem C8_refund_recovery (env : BobEnv) (st : BobState) (tx : String)
    (kp : PrivateKeyPair) (hpk : st.privkeys = some kp) (a : String)
    (hok : (bobHandleRefund env st tx).2.2 = RefundResult.ok a) :
    bobCheckMessageType st (.NotifyRefund tx) = true ∧
    ∃ logs sa vkA,
      env.receiptLogs = some logs ∧ logs ≠ [] ∧
      env.unpackSecret = some sa ∧ env.viewFromSpend = some vkA ∧
      (bobHandleRefund env st tx).2.1 =
        [.writeKeys (st.basepath ++ "/" ++ toString st.id ++ "/swap-secret")
            (sa + kp.spendKey) (vkA + kp.viewKey) true,
         .callGenFromKeys (sa + kp.spendKey) (vkA + kp.viewKey) true,
         .callRefresh true, .callGetBalance true, .setSuccess] ∧
      (bobHandleRefund env st tx).1.success = true := by
  constructor
  · rfl
  · unfold bobHandleRefund createMoneroWallet at hok ⊢
    repeat' split at hok
    all_goals simp_all

/-- Claim C8 witness: a concrete successful refund recovery run. -/
theorem C8_refund_recovery_witness :
    bobCheckMessageType bobStReady (.NotifyRefund ("0xr")) = true ∧
    ∃ logs sa vkA,
      bobEnvOk.receiptLogs = some logs ∧ logs ≠ [] ∧
      bobEnvOk.unpackSecret = some sa ∧ bobEnvOk.viewFromSpend = some vkA ∧
      (bobHandleRefund bobEnvOk bobStReady ("0xr")).2.1 =
        [.writeKeys (bobStReady.basepath ++ "/" ++ toString bobStReady.id ++ "/swap-secret")
            (sa + ({ spendKey := 4, viewKey := 5 } : PrivateKeyPair).spendKey)
            (vkA + ({ spendKey := 4, viewKey := 5 } : PrivateKeyPair).viewKey) true,
         .callGenFromKeys (sa + ({ spendKey := 4, viewKey := 5 } : PrivateKeyPair).spendKey)
            (vkA + ({ spendKey := 4, viewKey := 5 } : PrivateKeyPair).viewKey) true,
         .callRefresh true, .callGetBalance true, .setSuccess] ∧
      (bobHandleRefund bobEnvOk bobStReady ("0xr")).1.success = true :=
  C8_refund_recovery bobEnvOk bobStReady ("0xr") { spendKey := 4, viewKey := 5 }
    (by decide) (moneroAddress { spendKey := 11, viewKey := 8 }) (by decide)

/-- Claim C9 counterexample: the balance-shortfall audit path returns an error with
the view-only wallet still open, so the claim that every failure path closes
the wallet before returning is false at this input. -/
theorem C9_counterexample :
    ((aliceHandleProtocolMessage aliceEnvShort aliceStLock
        (Message.NotifyXMRLock ("A"))).2.2.isErr = true) ∧
    (viewOnlyOpenAfter (aliceHandleProtocolMessage aliceEnvShort aliceStLock
        (Message.NotifyXMRLock ("A"))).2.1 = true) := by
  decide

set_option maxHeartbeats 1600000 in
/-- Claim C9 amended: verifyBobKeys and the Bob SendKeys handler issue a CloseWallet
call before returning whenever their view-only wallet was opened, on success
and failure paths alike; but the Alice NotifyXMRLock audit closes its wallet
only when the whole audit succeeds: on refresh error, balance-read error, or
balance shortfall it returns an error with the view-only wallet left open. -/
theorem C9_wallet_closure_amended :
    (∀ (env : AliceEnv) (st : AliceState),
        Effect.callGenViewOnly true ∈ (verifyBobKeys env st).2.1 →
          ∃ b, Effect.callCloseWallet b ∈ (verifyBobKeys env st).2.1) ∧
    (∀ (env : BobEnv) (st : BobState) (p v h : String),
        Effect.callGenViewOnly true ∈ (bobHandleSendKeysMessage env st p v h).2.1 →
          ∃ b, Effect.callCloseWallet b ∈ (bobHandleSendKeysMessage env st p v h).2.1) ∧
    (∀ (env : AliceEnv) (st : AliceState) (a bv : String) (kp : PrivateKeyPair),
        a ≠ "" → st.bobPrivateViewKey = some bv → st.privkeys = some kp →
        a = env.expectedLockAddr → env.auditGenOk = true →
        env.auditRefreshOk = false →
          viewOnlyOpenAfter (aliceHandleXMRLock env st a).2.1 = true ∧
          (aliceHandleXMRLock env st a).2.2.isErr = true) ∧
    (∀ (env : AliceEnv) (st : AliceState) (a bv : String) (kp : PrivateKeyPair),
        a ≠ "" → st.bobPrivateViewKey = some bv → st.privkeys = some kp →
        a = env.expectedLockAddr → env.auditGenOk = true →
        env.auditRefreshOk = true → env.auditBalance = none →
          viewOnlyOpenAfter (aliceHandleXMRLock env st a).2.1 = true ∧
          (aliceHandleXMRLock env st a).2.2.isErr = true) ∧
    (∀ (env : AliceEnv) (st : AliceState) (a bv : String) (kp : PrivateKeyPair)
        (b : Nat),
        a ≠ "" → st.bobPrivateViewKey = some bv → st.privkeys = some kp →
        a = env.expectedLockAddr → env.auditGenOk = true →
        env.auditRefreshOk = true → env.auditBalance = some b →
        b < st.desiredAmount →
          viewOnlyOpenAfter (aliceHandleXMRLock env st a).2.1 = true ∧
          (aliceHandleXMRLock env st a).2.2.isErr = true) := by
  refine ⟨?_, ?_, ?_, ?_, ?_⟩
  · intro env st
    unfold verifyBobKeys
    repeat' split
    all_goals simp_all
  · intro env st p v h
    unfold bobHandleSendKeysMessage
    repeat' split
    all_goals simp_all
  · intro env st a bv kp ha hbv hpk haddr hgen hrf
    have ha2 : env.expectedLockAddr ≠ "" := haddr ▸ ha
    unfold aliceHandleXMRLock
    simp [ha, ha2, hbv, hpk, haddr, hgen, hrf, viewOnlyOpenAfter, Outcome.isErr]
  · intro env st a bv kp ha hbv hpk haddr hgen hrf hbn
    have ha2 : env.expectedLockAddr ≠ "" := haddr ▸ ha
    unfold aliceHandleXMRLock
    simp [ha, ha2, hbv, hpk, haddr, hgen, hrf, hbn, viewOnlyOpenAfter, Outcome.isErr]
  · intro env st a bv kp b ha hbv hpk haddr hgen hrf hb hlt
    have ha2 : env.expectedLockAddr ≠ "" := haddr ▸ ha
    unfold aliceHandleXMRLock
    simp [ha, ha2, hbv, hpk, haddr, hgen, hrf, hb, hlt, viewOnlyOpenAfter, Outcome.isErr]

/-- Claim C9 amended witness: a successful verifyBobKeys run opens and then closes
the verification wallet. -/
theorem C9_wallet_closure_amended_witness :
    ∃ b, Effect.callCloseWallet b ∈
      (verifyBobKeys aliceEnvOk (aliceNewSwapState 10 20)).2.1 :=
  C9_wallet_closure_amended.1 aliceEnvOk (aliceNewSwapState 10 20) (by decide)

/-- Claim C10 counterexample: a NotifyRefund delivered to a fresh Bob session
(before key generation, nextExpected SendKeys) passes the gate, and with a
receipt that decodes successfully the handler reaches the own-key summation
and crashes on the unset privkeys, so the totality claim is false at this
input. -/
theorem C10_counterexample :
    ((bobNewSwapState 10 20).privkeys = none) ∧
    ((bobNewSwapState 10 20).nextExpectedMessage = .SendKeysType) ∧
    (bobCheckMessageType (bobNewSwapState 10 20) (.NotifyRefund ("0xr")) = true) ∧
    ((bobHandleProtocolMessage bobEnvOk (bobNewSwapState 10 20)
        (Message.NotifyRefund ("0xr"))).2.2 = .crash) := by
  decide

/-- Helper: the refund handler cannot crash once the session keys are set. -/
theorem bobHandleRefund_no_crash (env : BobEnv) (st : BobState) (tx : String)
    (kp : PrivateKeyPair) (hpk : st.privkeys = some kp) :
    (bobHandleRefund env st tx).2.2 ≠ RefundResult.crash := by
  unfold bobHandleRefund createMoneroWallet
  repeat' split
  all_goals simp_all

set_option maxHeartbeats 1600000 in
/-- Claim C10 amended: Bob HandleProtocolMessage never crashes once the session
keys are set and the ready channel has not yet been closed, and the
NotifyRefund path never reads the contract field; but before key generation a
NotifyRefund whose receipt decodes successfully dereferences the unset
privkeys. -/
theorem C10_totality_amended :
    (∀ (env : BobEnv) (st : BobState) (m : Message) (kp : PrivateKeyPair),
        st.privkeys = some kp → st.readyClosed = false →
          (bobHandleProtocolMessage env st m).2.2 ≠ .crash) ∧
    (∀ (env : BobEnv) (st : BobState) (tx : String) (b : Bool),
        ((bobHandleRefund env { st with contractSet := b } tx).1 =
          { (bobHandleRefund env st tx).1 with contractSet := b }) ∧
        ((bobHandleRefund env { st with contractSet := b } tx).2 =
          (bobHandleRefund env st tx).2)) := by
  constructor
  · intro env st m kp hpk hrc
    cases m with
    | SendKeysMessage p v h e =>
      unfold bobHandleProtocolMessage
      repeat' split
      all_goals simp_all
    | NotifyContractDeployed a =>
      unfold bobHandleProtocolMessage bobHandleContractDeployed
      repeat' split
      all_goals simp_all
    | NotifyReady =>
      unfold bobHandleProtocolMessage
      repeat' split
      all_goals simp_all
      all_goals (split <;> simp_all)
    | NotifyClaimed tx =>
      unfold bobHandleProtocolMessage
      repeat' split
      all_goals simp_all
    | NotifyXMRLock a =>
      unfold bobHandleProtocolMessage
      repeat' split
      all_goals simp_all
    | NotifyRefund tx =>
      have hnc := bobHandleRefund_no_crash env st tx kp hpk
      unfold bobHandleProtocolMessage
      repeat' split
      all_goals simp_all
  · intro env st tx b
    unfold bobHandleRefund createMoneroWallet
    repeat' split
    all_goals simp_all

/-- Claim C10 amended witness: a concrete NotifyReady delivery with keys set and
the ready channel open does not crash. -/
theorem C10_totality_amended_witness :
    (bobHandleProtocolMessage bobEnvOk bobStReady .NotifyReady).2.2 ≠ .crash :=
  C10_totality_amended.1 bobEnvOk bobStReady .NotifyReady
    { spendKey := 4, viewKey := 5 } (by decide) (by decide)
